import Mathlib

set_option maxRecDepth 8000

/-!
Shallow embedding of the math-problem web application:
the Submission Evaluator route (`app/api/math-submission/route.ts`)
and the Problem Generator route (the difficulty-aware variant).

JavaScript numbers are modelled as exact rationals together with an
explicit `nan` value; the IEEE literal `0.0001` is idealised as the
rational `1/10000`.  External collaborators (the Supabase database and
the Gemini generation service) are oracles passed as function
arguments; each route handler is a pure function from its oracles and
request body to a response together with the externally observable
calls it made (fetches, generation-service calls, attempted inserts).
-/

/-- A JavaScript number: either `NaN` or a finite value, idealised as a
rational. -/
inductive JSNum where
  | nan : JSNum
  | val (q : ℚ) : JSNum
deriving DecidableEq, Repr

/-- JavaScript subtraction: any operation touching `NaN` yields `NaN`. -/
def JSNum.sub : JSNum → JSNum → JSNum
  | JSNum.val a, JSNum.val b => JSNum.val (a - b)
  | _, _ => JSNum.nan

/-- `Math.abs`: `NaN` propagates. -/
def JSNum.abs : JSNum → JSNum
  | JSNum.nan => JSNum.nan
  | JSNum.val q => JSNum.val |q|

/-- JavaScript `<`: any comparison involving `NaN` is `false`. -/
def JSNum.lt : JSNum → JSNum → Bool
  | JSNum.val a, JSNum.val b => decide (a < b)
  | _, _ => false

/-- A JavaScript value as it can appear in a parsed request-body field. -/
inductive JSVal where
  | num (n : JSNum) : JSVal
  | str (s : String) : JSVal
  | bool (b : Bool) : JSVal
  | null : JSVal
  | undefined : JSVal
deriving DecidableEq, Repr

/-- JavaScript truthiness, as used by `!sessionId` and `difficulty || ...`:
`undefined`, `null`, `false`, `0`, `NaN` and the empty string are falsy. -/
def JSVal.truthy : JSVal → Bool
  | JSVal.num JSNum.nan => false
  | JSVal.num (JSNum.val q) => decide (q ≠ 0)
  | JSVal.str s => decide (s ≠ "")
  | JSVal.bool b => b
  | JSVal.null => false
  | JSVal.undefined => false

/-- The `typeof userAnswer === "number"` test (`NaN` is a number). -/
def JSVal.isNumber : JSVal → Bool
  | JSVal.num _ => true
  | _ => false

/-- `String.prototype.trim()`: strips whitespace from both ends,
modelled on the character list of the string. -/
def jsTrim (s : String) : String :=
  String.mk (List.reverse (List.dropWhile (fun c => c.isWhitespace)
    (List.reverse (List.dropWhile (fun c => c.isWhitespace) s.data))))

/-- `String.prototype.toLowerCase()`, modelled on the character list of
the string. -/
def jsToLower (s : String) : String :=
  String.mk (s.data.map Char.toLower)

/-- The columns of a `math_problem_sessions` row read by the Evaluator
(`select("problem_text, correct_answer")`). -/
structure ProblemSession where
  problem_text : String
  correct_answer : ℚ
deriving DecidableEq, Repr

/-- A call to the generation service made by the Evaluator, identified by
which prompt template it instantiates and the data interpolated into it. -/
inductive GenCall where
  | solution (problem_text : String) (correct_answer : ℚ) : GenCall
  | feedback (problem_text : String) (correct_answer : ℚ)
      (userAnswer : JSNum) (isCorrect : Bool) : GenCall
deriving DecidableEq, Repr

/-- The `math_problem_submissions` row the Evaluator attempts to insert. -/
structure SubmissionRow where
  session_id : JSVal
  user_answer : JSNum
  is_correct : Bool
  feedback_text : String
  detailed_solution : String
deriving DecidableEq, Repr

/-- The JSON response of the Evaluator: an error with an HTTP status, or
the 200 payload `{isCorrect, feedback, correctAnswer, detailedSolution}`. -/
inductive SubmissionResponse where
  | error (status : Nat) (message : String) : SubmissionResponse
  | success (isCorrect : Bool) (feedback : String)
      (correctAnswer : ℚ) (detailedSolution : String) : SubmissionResponse
deriving DecidableEq, Repr

/-- Result of one Evaluator invocation: the response plus the externally
observable calls it performed, in order. -/
structure SubmissionResult where
  response : SubmissionResponse
  fetchedIds : List JSVal
  genCalls : List GenCall
  attemptedInserts : List SubmissionRow
deriving DecidableEq, Repr

/-- The correctness check of the Evaluator:
`Math.abs(userAnswer - correct_answer) < 0.0001`. -/
def checkCorrect (userAnswer : JSNum) (correct_answer : ℚ) : Bool :=
  JSNum.lt (JSNum.abs (JSNum.sub userAnswer (JSNum.val correct_answer)))
    (JSNum.val (1 / 10000))

/-- `generateDetailedSolution`: asks the generation service for the
step-by-step solution; on any service failure it returns the literal
placeholder `"Error generating steps."`. -/
def generateDetailedSolution (gen : GenCall → Except Unit String)
    (problemText : String) (correctAnswer : ℚ) : String :=
  match gen (GenCall.solution problemText correctAnswer) with
  | Except.ok t => jsTrim t
  | Except.error _ => "Error generating steps."

/-- The parsed request body of the Evaluator; an absent field is
`undefined`. -/
structure SubmissionBody where
  sessionId : JSVal
  userAnswer : JSVal
deriving DecidableEq, Repr

/-- The `POST` handler of `app/api/math-submission/route.ts`.

`fetchSession` models the Supabase point lookup (`none` covers both a
fetch error and a missing row); `gen` models the generation service;
`insertResult` is the outcome of the submission insert when it is
attempted. -/
def submissionPOST (fetchSession : JSVal → Option ProblemSession)
    (gen : GenCall → Except Unit String)
    (insertResult : Except Unit Unit)
    (body : SubmissionBody) : SubmissionResult :=
  if ¬ (JSVal.truthy body.sessionId = true) ∨
      ¬ (JSVal.isNumber body.userAnswer = true) then
    { response := SubmissionResponse.error 400 "Invalid session ID or answer format."
      fetchedIds := []
      genCalls := []
      attemptedInserts := [] }
  else
    match body.userAnswer with
    | JSVal.num userAnswer =>
      match fetchSession body.sessionId with
      | none =>
        { response := SubmissionResponse.error 404 "Problem session not found."
          fetchedIds := [body.sessionId]
          genCalls := []
          attemptedInserts := [] }
      | some ps =>
        let isCorrect := checkCorrect userAnswer ps.correct_answer
        let detailedSolution :=
          if isCorrect then ""
          else generateDetailedSolution gen ps.problem_text ps.correct_answer
        let solutionCalls :=
          if isCorrect then []
          else [GenCall.solution ps.problem_text ps.correct_answer]
        let fbCall := GenCall.feedback ps.problem_text ps.correct_answer
          userAnswer isCorrect
        match gen fbCall with
        | Except.error _ =>
          { response := SubmissionResponse.error 500
              "An error occurred during answer submission or feedback generation."
            fetchedIds := [body.sessionId]
            genCalls := solutionCalls ++ [fbCall]
            attemptedInserts := [] }
        | Except.ok fb =>
          let feedbackText := jsTrim fb
          let row : SubmissionRow :=
            { session_id := body.sessionId
              user_answer := userAnswer
              is_correct := isCorrect
              feedback_text := feedbackText
              detailed_solution := detailedSolution }
          -- an insert error is logged and otherwise ignored
          { response := SubmissionResponse.success isCorrect feedbackText
              ps.correct_answer detailedSolution
            fetchedIds := [body.sessionId]
            genCalls := solutionCalls ++ [fbCall]
            attemptedInserts := [row] }
    | _ =>
      { response := SubmissionResponse.error 400 "Invalid session ID or answer format."
        fetchedIds := []
        genCalls := []
        attemptedInserts := [] }

/-- The fixed part of the generator's system instruction that precedes the
difficulty-dependent complexity hint. -/
def genInstrPrefix : String :=
  "\n    You are a specialized math problem generator. Your sole task is to generate a single Primary 5 (Singapore equivalent) math word problem and its final answer. \n\n    Requirements: \n    - "

/-- The fixed part of the generator's system instruction that follows the
difficulty-dependent complexity hint. -/
def genInstrSuffix : String :=
  "\n    - The problem MUST be varied in topic and can involve whole numbers, addition, subtraction, multiplication, division, fractions, decimals, or percentages. \n    - The problem must be solvable and realistic for a Primary 5 student. \n    - Use standard text and ASCII characters for mathematical notation (e.g., 3/5, 2.75, 40%). \n    - Respond ONLY in the following JSON format.\n  "

/-- The complexity hint selected for `"easy"` difficulty. -/
def easyHint : String :=
  "The problem should primarily involve single-step addition or subtraction with small whole numbers. Avoid complex fractions or multiple operations."

/-- The complexity hint selected for `"hard"` difficulty. -/
def hardHint : String :=
  "The problem MUST involve multiple steps, require converting between units (e.g., time, mass, money, or units of length), and heavily use fractions, decimals, and percentages in a combined scenario."

/-- The complexity hint selected for `"medium"` and any other difficulty. -/
def mediumHint : String :=
  "The problem should involve 2-3 steps, often combining multiplication/division with addition/subtraction, or include straightforward operations with simple fractions/decimals."

/-- `createSystemInstruction` of the generator route: switches on
`difficulty.toLowerCase()` and interpolates the selected complexity hint
into the fixed instruction template. -/
def createSystemInstruction (difficulty : String) : String :=
  let complexityHint :=
    if jsToLower difficulty = "easy" then easyHint
    else if jsToLower difficulty = "hard" then hardHint
    else mediumHint
  genInstrPrefix ++ complexityHint ++ genInstrSuffix

/-- A JSON value, as produced by `JSON.parse` on the generation-service
output and as passed to the database insert. -/
inductive JVal where
  | str (s : String) : JVal
  | num (q : ℚ) : JVal
  | bool (b : Bool) : JVal
  | null : JVal
  | arr (xs : List JVal) : JVal
  | obj (fields : List (String × JVal)) : JVal

/-- JavaScript property access `v[k]`: `none` models `undefined`. -/
def JVal.get : JVal → String → Option JVal
  | JVal.obj fields, k =>
    match fields.find? (fun f => f.1 = k) with
    | some f => some f.2
    | none => none
  | _, _ => none

/-- The JSON response of the generator route: an error with an HTTP
status, or the 200 payload
`{problem_text, final_answer, sessionId, difficulty}` whose first three
fields are read off the database-returned row (`none` models a missing
field serialised as absent/undefined). -/
inductive GenResponse where
  | error (status : Nat) (message : String) : GenResponse
  | success (problem_text : Option JVal) (final_answer : Option JVal)
      (sessionId : Option JVal) (difficulty : String) : GenResponse

/-- Result of one generator invocation: the response plus the system
instructions sent to the generation service and the payloads passed to
the database insert, in order. -/
structure GenRouteResult where
  response : GenResponse
  sentInstructions : List String
  attemptedInserts : List JVal

/-- The `POST` handler of the difficulty-aware problem-generation route.

`gen` models the generation-service call followed by `JSON.parse` of its
text: `Except.error` covers both a service failure and syntactically
invalid JSON (each throws, landing in the route's catch-all), while
`Except.ok v` is the parsed JSON value, which the route does not further
validate.  `dbInsert` models `insert([problemData]).select().single()`,
returning the inserted row on success.  `difficulty` is the request-body
field (`none` when absent). -/
def mathProblemPOST (gen : String → Except Unit JVal)
    (dbInsert : JVal → Except Unit JVal)
    (difficulty : Option String) : GenRouteResult :=
  let currentDifficulty :=
    match difficulty with
    | some d => if d = "" then "Medium" else d
    | none => "Medium"
  let systemInstruction := createSystemInstruction currentDifficulty
  match gen systemInstruction with
  | Except.error _ =>
    { response := GenResponse.error 500
        "An error occurred during problem generation or processing."
      sentInstructions := [systemInstruction]
      attemptedInserts := [] }
  | Except.ok problemData =>
    match dbInsert problemData with
    | Except.error _ =>
      { response := GenResponse.error 500 "Failed to save problem to database."
        sentInstructions := [systemInstruction]
        attemptedInserts := [problemData] }
    | Except.ok data =>
      { response := GenResponse.success (JVal.get data "problem_text")
          (JVal.get data "correct_answer") (JVal.get data "id")
          currentDifficulty
        sentInstructions := [systemInstruction]
        attemptedInserts := [problemData] }

/-! ## Helper lemmas -/

/-- On finite values the correctness check is exactly the strict rational
comparison against the tolerance `1/10000`. -/
theorem checkCorrect_val (a b : ℚ) :
    checkCorrect (JSNum.val a) b = decide (|a - b| < 1 / 10000) := by
  simp [checkCorrect, JSNum.sub, JSNum.abs, JSNum.lt]

/-- `generateDetailedSolution` returns either the trimmed service text or
the literal placeholder, according to the outcome of the solution call. -/
theorem generateDetailedSolution_cases (gen : GenCall → Except Unit String)
    (pt : String) (ca : ℚ) :
    (∃ s, gen (GenCall.solution pt ca) = Except.ok s ∧
      generateDetailedSolution gen pt ca = jsTrim s) ∨
    (∃ e, gen (GenCall.solution pt ca) = Except.error e ∧
      generateDetailedSolution gen pt ca = "Error generating steps.") := by
  cases h : gen (GenCall.solution pt ca) with
  | ok s => exact Or.inl ⟨s, rfl, by simp [generateDetailedSolution, h]⟩
  | error e => exact Or.inr ⟨e, rfl, by simp [generateDetailedSolution, h]⟩

/-! ## Claims -/

/-- C1: the Evaluator computes `isCorrect` as the strict comparison
`|userAnswer - correct_answer| < 1e-4`: true exactly below the tolerance,
false at or above it, in particular false when the distance is exactly
`1e-4`; and a successful Evaluator run reports exactly this flag (the
check takes no difficulty input). -/
theorem evaluator_tolerance_strict (a b : ℚ) :
    (checkCorrect (JSNum.val a) b = true ↔ |a - b| < 1 / 10000) ∧
    (|a - b| = 1 / 10000 → checkCorrect (JSNum.val a) b = false) ∧
    (∀ (fetchSession : JSVal → Option ProblemSession)
        (gen : GenCall → Except Unit String) (ins : Except Unit Unit)
        (sid : JSVal) (ps : ProblemSession) (fb : String),
      JSVal.truthy sid = true →
      fetchSession sid = some ps →
      gen (GenCall.feedback ps.problem_text ps.correct_answer (JSNum.val a)
        (checkCorrect (JSNum.val a) ps.correct_answer)) = Except.ok fb →
      (submissionPOST fetchSession gen ins
          ⟨sid, JSVal.num (JSNum.val a)⟩).response =
        SubmissionResponse.success (checkCorrect (JSNum.val a) ps.correct_answer)
          (jsTrim fb) ps.correct_answer
          (if checkCorrect (JSNum.val a) ps.correct_answer then ""
           else generateDetailedSolution gen ps.problem_text ps.correct_answer)) := by
  refine ⟨?_, ?_, ?_⟩
  · rw [checkCorrect_val]; simp
  · intro h; rw [checkCorrect_val, h]; simp
  · intro fetchSession gen ins sid ps fb ht hf hg
    simp [submissionPOST, ht, hf, hg, JSVal.isNumber]

/-- Witness for C1 at concrete inputs: distance exactly `1e-4` grades
false, distance `1/20000` grades true, and a concrete Evaluator run
returns the flag computed by the check. -/
theorem evaluator_tolerance_strict_witness :
    checkCorrect (JSNum.val (1 / 10000)) 0 = false ∧
    checkCorrect (JSNum.val (1 / 20000)) 0 = true ∧
    (submissionPOST (fun _ => some ⟨"P", 0⟩) (fun _ => Except.ok "Nice try!")
        (Except.ok ())
        ⟨JSVal.str "s1", JSVal.num (JSNum.val (1 / 10000))⟩).response =
      SubmissionResponse.success false "Nice try!" 0 "Nice try!" := by
  have h0 : checkCorrect (JSNum.val (1 / 10000)) 0 = false :=
    (evaluator_tolerance_strict (1 / 10000) 0).2.1 (by norm_num [abs_of_nonneg])
  refine ⟨h0, ((evaluator_tolerance_strict (1 / 20000) 0).1).mpr
    (by norm_num [abs_lt]), ?_⟩
  have h3 := (evaluator_tolerance_strict (1 / 10000) 0).2.2
    (fun _ => some ⟨"P", 0⟩) (fun _ => Except.ok "Nice try!") (Except.ok ())
    (JSVal.str "s1") ⟨"P", 0⟩ "Nice try!" (by decide) rfl rfl
  rw [h3, h0]
  simp only [Bool.false_eq_true, if_false]
  have : generateDetailedSolution (fun _ => Except.ok "Nice try!") "P" 0 =
      jsTrim "Nice try!" := rfl
  rw [this]
  decide

/-- C3: a submission whose sessionId does not identify a stored session
yields the 404 response `"Problem session not found."`, with no
generation-service call and no attempted Submission insert. -/
theorem unknown_session_404_no_write
    (fetchSession : JSVal → Option ProblemSession)
    (gen : GenCall → Except Unit String) (ins : Except Unit Unit)
    (sid : JSVal) (ua : JSNum)
    (ht : JSVal.truthy sid = true)
    (hf : fetchSession sid = none) :
    submissionPOST fetchSession gen ins ⟨sid, JSVal.num ua⟩ =
      { response := SubmissionResponse.error 404 "Problem session not found."
        fetchedIds := [sid]
        genCalls := []
        attemptedInserts := [] } := by
  simp [submissionPOST, ht, hf, JSVal.isNumber]

/-- Witness for C3: submitting against an empty store with
sessionId `"does-not-exist"` returns 404 and writes nothing. -/
theorem unknown_session_404_no_write_witness :
    submissionPOST (fun _ => none) (fun _ => Except.ok "fb") (Except.ok ())
      ⟨JSVal.str "does-not-exist", JSVal.num (JSNum.val 3)⟩ =
      { response := SubmissionResponse.error 404 "Problem session not found."
        fetchedIds := [JSVal.str "does-not-exist"]
        genCalls := []
        attemptedInserts := [] } :=
  unknown_session_404_no_write (fun _ => none) (fun _ => Except.ok "fb")
    (Except.ok ()) (JSVal.str "does-not-exist") (JSNum.val 3) (by decide) rfl

/-- C4: a submission with a missing (`undefined`) sessionId or a
non-numeric userAnswer is rejected with the 400 response before any
external call: no session fetch, no generation-service call, no insert. -/
theorem invalid_input_400_no_calls
    (fetchSession : JSVal → Option ProblemSession)
    (gen : GenCall → Except Unit String) (ins : Except Unit Unit)
    (body : SubmissionBody)
    (h : body.sessionId = JSVal.undefined ∨
      JSVal.isNumber body.userAnswer = false) :
    submissionPOST fetchSession gen ins body =
      { response := SubmissionResponse.error 400
          "Invalid session ID or answer format."
        fetchedIds := []
        genCalls := []
        attemptedInserts := [] } := by
  rcases h with h | h
  · simp [submissionPOST, h, JSVal.truthy]
  · simp [submissionPOST, h]

/-- Witness for C4: a body with no sessionId, and a body whose userAnswer
is the string `"seven"`, are both rejected with 400 and no calls. -/
theorem invalid_input_400_no_calls_witness :
    submissionPOST (fun _ => none) (fun _ => Except.ok "fb") (Except.ok ())
      ⟨JSVal.undefined, JSVal.num (JSNum.val 3)⟩ =
      { response := SubmissionResponse.error 400
          "Invalid session ID or answer format."
        fetchedIds := []
        genCalls := []
        attemptedInserts := [] } ∧
    submissionPOST (fun _ => none) (fun _ => Except.ok "fb") (Except.ok ())
      ⟨JSVal.str "s1", JSVal.str "seven"⟩ =
      { response := SubmissionResponse.error 400
          "Invalid session ID or answer format."
        fetchedIds := []
        genCalls := []
        attemptedInserts := [] } :=
  ⟨invalid_input_400_no_calls _ _ _ _ (Or.inl rfl),
   invalid_input_400_no_calls _ _ _ _ (Or.inr rfl)⟩

/-- C10: `NaN` passes the numeric-type validation (it is a JavaScript
number), the correctness check evaluates false against every stored
answer, and the run returns `isCorrect = false` with the generated (or
placeholder) detailed solution. -/
theorem nan_answer_always_incorrect (b : ℚ)
    (fetchSession : JSVal → Option ProblemSession)
    (gen : GenCall → Except Unit String) (ins : Except Unit Unit)
    (sid : JSVal) (ps : ProblemSession) (fb : String)
    (ht : JSVal.truthy sid = true)
    (hf : fetchSession sid = some ps)
    (hg : gen (GenCall.feedback ps.problem_text ps.correct_answer JSNum.nan
      false) = Except.ok fb) :
    checkCorrect JSNum.nan b = false ∧
    JSVal.isNumber (JSVal.num JSNum.nan) = true ∧
    (submissionPOST fetchSession gen ins ⟨sid, JSVal.num JSNum.nan⟩).response =
      SubmissionResponse.success false (jsTrim fb) ps.correct_answer
        (generateDetailedSolution gen ps.problem_text ps.correct_answer) := by
  have hcc : ∀ c : ℚ, checkCorrect JSNum.nan c = false := fun _ => rfl
  refine ⟨hcc b, rfl, ?_⟩
  simp [submissionPOST, ht, hf, hg, hcc, JSVal.isNumber]

/-- Witness for C10: a concrete `NaN` submission against a stored answer
`5` proceeds and grades incorrect, with the generated solution text. -/
theorem nan_answer_always_incorrect_witness :
    checkCorrect JSNum.nan 5 = false ∧
    JSVal.isNumber (JSVal.num JSNum.nan) = true ∧
    (submissionPOST (fun _ => some ⟨"P", 5⟩)
        (fun c => match c with
          | GenCall.solution _ _ => Except.ok "1. 2 + 3 = 5"
          | GenCall.feedback _ _ _ _ => Except.ok "Almost!")
        (Except.ok ())
        ⟨JSVal.str "s1", JSVal.num JSNum.nan⟩).response =
      SubmissionResponse.success false (jsTrim "Almost!") 5
        (generateDetailedSolution
          (fun c => match c with
            | GenCall.solution _ _ => Except.ok "1. 2 + 3 = 5"
            | GenCall.feedback _ _ _ _ => Except.ok "Almost!")
          "P" 5) :=
  nan_answer_always_incorrect 5 (fun _ => some ⟨"P", 5⟩)
    (fun c => match c with
      | GenCall.solution _ _ => Except.ok "1. 2 + 3 = 5"
      | GenCall.feedback _ _ _ _ => Except.ok "Almost!")
    (Except.ok ()) (JSVal.str "s1") ⟨"P", 5⟩ "Almost!" (by decide) rfl rfl

/-- C5: a generation-service failure during the detailed-solution
sub-call never fails the request — the response is still a 200 success
with the placeholder text — while a failure during the feedback sub-call
fails the whole request with the 500 error response. -/
theorem solution_fail_degrades_feedback_fail_fatal
    (fetchSession : JSVal → Option ProblemSession)
    (gen : GenCall → Except Unit String) (ins : Except Unit Unit)
    (sid : JSVal) (ps : ProblemSession) (ua : JSNum)
    (ht : JSVal.truthy sid = true)
    (hf : fetchSession sid = some ps) :
    (∀ e, gen (GenCall.feedback ps.problem_text ps.correct_answer ua
        (checkCorrect ua ps.correct_answer)) = Except.error e →
      (submissionPOST fetchSession gen ins ⟨sid, JSVal.num ua⟩).response =
        SubmissionResponse.error 500
          "An error occurred during answer submission or feedback generation.") ∧
    (∀ fb e, checkCorrect ua ps.correct_answer = false →
      gen (GenCall.feedback ps.problem_text ps.correct_answer ua false) =
        Except.ok fb →
      gen (GenCall.solution ps.problem_text ps.correct_answer) =
        Except.error e →
      (submissionPOST fetchSession gen ins ⟨sid, JSVal.num ua⟩).response =
        SubmissionResponse.success false (jsTrim fb) ps.correct_answer
          "Error generating steps.") := by
  constructor
  · intro e hg
    simp [submissionPOST, ht, hf, hg, JSVal.isNumber]
  · intro fb e hic hfb hsol
    simp [submissionPOST, ht, hf, hic, hfb, hsol, JSVal.isNumber,
      generateDetailedSolution]

/-- Witness for C5 at a concrete store and service: a failing solution
call degrades to the placeholder under a 200, and a failing feedback call
yields the 500 error. -/
theorem solution_fail_degrades_feedback_fail_fatal_witness :
    (submissionPOST (fun _ => some ⟨"P", 5⟩)
        (fun c => match c with
          | GenCall.solution _ _ => Except.error ()
          | GenCall.feedback _ _ _ _ => Except.ok "Almost!")
        (Except.ok ()) ⟨JSVal.str "s1", JSVal.num (JSNum.val 4)⟩).response =
      SubmissionResponse.success false (jsTrim "Almost!") 5
        "Error generating steps." ∧
    (submissionPOST (fun _ => some ⟨"P", 5⟩) (fun _ => Except.error ())
        (Except.ok ()) ⟨JSVal.str "s1", JSVal.num (JSNum.val 4)⟩).response =
      SubmissionResponse.error 500
        "An error occurred during answer submission or feedback generation." := by
  have hc : checkCorrect (JSNum.val 4) 5 = false := by
    rw [checkCorrect_val]; norm_num [abs_sub_lt_iff]
  constructor
  · exact (solution_fail_degrades_feedback_fail_fatal (fun _ => some ⟨"P", 5⟩)
      (fun c => match c with
        | GenCall.solution _ _ => Except.error ()
        | GenCall.feedback _ _ _ _ => Except.ok "Almost!")
      (Except.ok ()) (JSVal.str "s1") ⟨"P", 5⟩ (JSNum.val 4) (by decide)
      rfl).2 "Almost!" () hc rfl rfl
  · exact (solution_fail_degrades_feedback_fail_fatal (fun _ => some ⟨"P", 5⟩)
      (fun _ => Except.error ()) (Except.ok ()) (JSVal.str "s1") ⟨"P", 5⟩
      (JSNum.val 4) (by decide) rfl).1 () rfl

/-- Counterexample to C2 as stated: when the generation service succeeds
but returns the empty text for the solution sub-call, an incorrect
submission still succeeds with `isCorrect = false` while
`detailedSolution` is the empty string — not a non-empty step list and
not the placeholder. -/
theorem incorrect_empty_solution_counterexample :
    (submissionPOST (fun _ => some ⟨"P", 5⟩)
        (fun c => match c with
          | GenCall.solution _ _ => Except.ok ""
          | GenCall.feedback _ _ _ _ => Except.ok "Good try!")
        (Except.ok ()) ⟨JSVal.str "s1", JSVal.num (JSNum.val 4)⟩).response =
      SubmissionResponse.success false "Good try!" 5 "" ∧
    ("" : String) ≠ "Error generating steps." := by
  have hc : checkCorrect (JSNum.val 4) 5 = false := by
    rw [checkCorrect_val]; norm_num [abs_sub_lt_iff]
  refine ⟨?_, by decide⟩
  simp only [submissionPOST, hc, JSVal.isNumber, JSVal.truthy,
    generateDetailedSolution]
  decide

/-- C2 amended: on a successful run, `detailedSolution` is the empty
string when the answer is correct (the solution sub-call is skipped
entirely: only the feedback call is made), and when incorrect it is the
trimmed service text on success or the literal placeholder on failure —
so it can be empty exactly when the service returns only whitespace. -/
theorem detailed_solution_amended
    (fetchSession : JSVal → Option ProblemSession)
    (gen : GenCall → Except Unit String) (ins : Except Unit Unit)
    (sid : JSVal) (ua : JSNum) (ps : ProblemSession) (fb : String)
    (ht : JSVal.truthy sid = true)
    (hf : fetchSession sid = some ps)
    (hg : gen (GenCall.feedback ps.problem_text ps.correct_answer ua
      (checkCorrect ua ps.correct_answer)) = Except.ok fb) :
    (checkCorrect ua ps.correct_answer = true →
      (submissionPOST fetchSession gen ins ⟨sid, JSVal.num ua⟩).response =
        SubmissionResponse.success true (jsTrim fb) ps.correct_answer "" ∧
      (submissionPOST fetchSession gen ins ⟨sid, JSVal.num ua⟩).genCalls =
        [GenCall.feedback ps.problem_text ps.correct_answer ua true]) ∧
    (checkCorrect ua ps.correct_answer = false →
      (submissionPOST fetchSession gen ins ⟨sid, JSVal.num ua⟩).response =
        SubmissionResponse.success false (jsTrim fb) ps.correct_answer
          (generateDetailedSolution gen ps.problem_text ps.correct_answer) ∧
      ((∃ s, gen (GenCall.solution ps.problem_text ps.correct_answer) =
          Except.ok s ∧
        generateDetailedSolution gen ps.problem_text ps.correct_answer =
          jsTrim s) ∨
       (∃ e, gen (GenCall.solution ps.problem_text ps.correct_answer) =
          Except.error e ∧
        generateDetailedSolution gen ps.problem_text ps.correct_answer =
          "Error generating steps."))) := by
  constructor
  · intro hic
    rw [hic] at hg
    constructor
    · simp [submissionPOST, ht, hf, hg, hic, JSVal.isNumber]
    · simp [submissionPOST, ht, hf, hg, hic, JSVal.isNumber]
  · intro hic
    rw [hic] at hg
    refine ⟨?_, generateDetailedSolution_cases gen _ _⟩
    simp [submissionPOST, ht, hf, hg, hic, JSVal.isNumber]

/-- Witness for C2 (amended) at concrete runs: a correct submission gets
the empty solution with only the feedback call made, and an incorrect one
gets the trimmed generated step list. -/
theorem detailed_solution_amended_witness :
    (submissionPOST (fun _ => some ⟨"P", 5⟩)
        (fun c => match c with
          | GenCall.solution _ _ => Except.ok " 1. 2 + 3 = 5 "
          | GenCall.feedback _ _ _ _ => Except.ok "Well done!")
        (Except.ok ()) ⟨JSVal.str "s1", JSVal.num (JSNum.val 5)⟩).response =
      SubmissionResponse.success true "Well done!" 5 "" ∧
    (submissionPOST (fun _ => some ⟨"P", 5⟩)
        (fun c => match c with
          | GenCall.solution _ _ => Except.ok " 1. 2 + 3 = 5 "
          | GenCall.feedback _ _ _ _ => Except.ok "Almost!")
        (Except.ok ()) ⟨JSVal.str "s1", JSVal.num (JSNum.val 4)⟩).response =
      SubmissionResponse.success false "Almost!" 5 "1. 2 + 3 = 5" := by
  have hcT : checkCorrect (JSNum.val 5) 5 = true := by
    rw [checkCorrect_val]; norm_num [abs_lt]
  have hcF : checkCorrect (JSNum.val 4) 5 = false := by
    rw [checkCorrect_val]; norm_num [abs_sub_lt_iff]
  constructor
  · have h := ((detailed_solution_amended (fun _ => some ⟨"P", 5⟩)
      (fun c => match c with
        | GenCall.solution _ _ => Except.ok " 1. 2 + 3 = 5 "
        | GenCall.feedback _ _ _ _ => Except.ok "Well done!")
      (Except.ok ()) (JSVal.str "s1") (JSNum.val 5) ⟨"P", 5⟩ "Well done!"
      (by decide) rfl (by rw [hcT])).1 hcT).1
    rw [h]
    decide
  · have h := ((detailed_solution_amended (fun _ => some ⟨"P", 5⟩)
      (fun c => match c with
        | GenCall.solution _ _ => Except.ok " 1. 2 + 3 = 5 "
        | GenCall.feedback _ _ _ _ => Except.ok "Almost!")
      (Except.ok ()) (JSVal.str "s1") (JSNum.val 4) ⟨"P", 5⟩ "Almost!"
      (by decide) rfl (by rw [hcF])).2 hcF).1
    rw [h]
    decide

/-- C6: the outcome of the Submission-row insert is invisible to the
caller — the whole result (response included) is identical for any two
insert outcomes — and any run that attempts the insert has a 200 success
response carrying exactly the flag, feedback and solution of the inserted
row. -/
theorem insert_failure_invisible
    (fetchSession : JSVal → Option ProblemSession)
    (gen : GenCall → Except Unit String) (body : SubmissionBody) :
    (∀ i j : Except Unit Unit,
      submissionPOST fetchSession gen i body =
        submissionPOST fetchSession gen j body) ∧
    (∀ (i : Except Unit Unit) (row : SubmissionRow) (rest : List SubmissionRow),
      (submissionPOST fetchSession gen i body).attemptedInserts = row :: rest →
      (submissionPOST fetchSession gen i body).response =
        SubmissionResponse.success row.is_correct row.feedback_text
          (match fetchSession body.sessionId with
           | some ps => ps.correct_answer
           | none => 0) row.detailed_solution) := by
  constructor
  · intro i j
    rfl
  · intro i row rest h
    unfold submissionPOST at h ⊢
    split at h
    · simp at h
    · split at h
      · split at h
        · simp at h
        · dsimp only at h ⊢
          split at h
          · simp at h
          · simp_all
            obtain ⟨hrow, -⟩ := h
            rw [← hrow]
            exact ⟨rfl, rfl, rfl⟩
      · simp at h

/-- Witness for C6: a concrete run whose insert fails returns exactly the
same result as the identical run whose insert succeeds, and its response
is the 200 success. -/
theorem insert_failure_invisible_witness :
    submissionPOST (fun _ => some ⟨"P", 5⟩) (fun _ => Except.ok "Well done!")
        (Except.error ()) ⟨JSVal.str "s1", JSVal.num (JSNum.val 5)⟩ =
      submissionPOST (fun _ => some ⟨"P", 5⟩) (fun _ => Except.ok "Well done!")
        (Except.ok ()) ⟨JSVal.str "s1", JSVal.num (JSNum.val 5)⟩ ∧
    (submissionPOST (fun _ => some ⟨"P", 5⟩) (fun _ => Except.ok "Well done!")
        (Except.error ()) ⟨JSVal.str "s1", JSVal.num (JSNum.val 5)⟩).response =
      SubmissionResponse.success true "Well done!" 5 "" := by
  have hcT : checkCorrect (JSNum.val 5) 5 = true := by
    rw [checkCorrect_val]; norm_num [abs_lt]
  have hins : (submissionPOST (fun _ => some ⟨"P", 5⟩)
      (fun _ => Except.ok "Well done!") (Except.error ())
      ⟨JSVal.str "s1", JSVal.num (JSNum.val 5)⟩).attemptedInserts =
      ({ session_id := JSVal.str "s1", user_answer := JSNum.val 5,
         is_correct := true, feedback_text := "Well done!",
         detailed_solution := "" } : SubmissionRow) :: [] := by
    simp only [submissionPOST, hcT, JSVal.isNumber, JSVal.truthy]
    decide
  refine ⟨(insert_failure_invisible (fun _ => some ⟨"P", 5⟩)
    (fun _ => Except.ok "Well done!") ⟨JSVal.str "s1", JSVal.num (JSNum.val 5)⟩).1
    (Except.error ()) (Except.ok ()), ?_⟩
  have h2 := (insert_failure_invisible (fun _ => some ⟨"P", 5⟩)
    (fun _ => Except.ok "Well done!") ⟨JSVal.str "s1", JSVal.num (JSNum.val 5)⟩).2
    (Except.error ()) _ [] hins
  rw [h2]

/-- The generator sends exactly one system instruction per invocation:
the one built from the request difficulty (defaulted to `"Medium"`). -/
theorem mathProblemPOST_sentInstructions (gen : String → Except Unit JVal)
    (dbInsert : JVal → Except Unit JVal) (difficulty : Option String) :
    (mathProblemPOST gen dbInsert difficulty).sentInstructions =
      [createSystemInstruction
        (match difficulty with
         | some d => if d = "" then "Medium" else d
         | none => "Medium")] := by
  unfold mathProblemPOST
  dsimp only
  split
  · rfl
  · split <;> rfl

/-- C9: the system instruction the generator sends for difficulty
`"Hard"` embeds the hint demanding multiple steps and unit conversion,
the one sent for `"Easy"` embeds the single-step small-whole-number hint,
and the two instructions are different strings. -/
theorem hard_easy_instructions_differ (gen : String → Except Unit JVal)
    (dbInsert : JVal → Except Unit JVal) :
    (mathProblemPOST gen dbInsert (some "Hard")).sentInstructions =
      [genInstrPrefix ++
        "The problem MUST involve multiple steps, require converting between units (e.g., time, mass, money, or units of length), and heavily use fractions, decimals, and percentages in a combined scenario." ++
        genInstrSuffix] ∧
    (mathProblemPOST gen dbInsert (some "Easy")).sentInstructions =
      [genInstrPrefix ++
        "The problem should primarily involve single-step addition or subtraction with small whole numbers. Avoid complex fractions or multiple operations." ++
        genInstrSuffix] ∧
    createSystemInstruction "Hard" ≠ createSystemInstruction "Easy" := by
  refine ⟨?_, ?_, by decide⟩
  · rw [mathProblemPOST_sentInstructions]
    decide
  · rw [mathProblemPOST_sentInstructions]
    decide

/-- Counterexample to C7 as stated: a fully successful generation run
with difficulty `"Hard"` inserts exactly the parsed two-field object —
the persisted payload has no `difficulty` field at all (the difficulty is
only echoed back in the response). -/
theorem difficulty_not_persisted_counterexample :
    mathProblemPOST
      (fun _ => Except.ok (JVal.obj [("problem_text", JVal.str "One pie costs?"),
        ("correct_answer", JVal.num 2)]))
      (fun v => Except.ok (JVal.obj (("id", JVal.str "sess-1") ::
        (match v with | JVal.obj fs => fs | _ => []))))
      (some "Hard") =
      { response := GenResponse.success (some (JVal.str "One pie costs?"))
          (some (JVal.num 2)) (some (JVal.str "sess-1")) "Hard"
        sentInstructions := [createSystemInstruction "Hard"]
        attemptedInserts := [JVal.obj [("problem_text", JVal.str "One pie costs?"),
          ("correct_answer", JVal.num 2)]] } ∧
    JVal.get (JVal.obj [("problem_text", JVal.str "One pie costs?"),
      ("correct_answer", JVal.num 2)]) "difficulty" = none := by
  exact ⟨rfl, rfl⟩

/-- C7 amended: on a successful run whose service output conforms to the
two-field schema, the generator persists exactly the parsed object — it
contains the parsed `problem_text` and `correct_answer` but no
`difficulty` field — and returns the difficulty only in the response. -/
theorem generator_persists_parsed_fields
    (gen : String → Except Unit JVal) (dbInsert : JVal → Except Unit JVal)
    (d : String) (pt : String) (ca : ℚ) (row : JVal)
    (hd : d ≠ "")
    (hg : gen (createSystemInstruction d) = Except.ok
      (JVal.obj [("problem_text", JVal.str pt), ("correct_answer", JVal.num ca)]))
    (hdb : dbInsert (JVal.obj [("problem_text", JVal.str pt),
      ("correct_answer", JVal.num ca)]) = Except.ok row) :
    (mathProblemPOST gen dbInsert (some d)).attemptedInserts =
      [JVal.obj [("problem_text", JVal.str pt), ("correct_answer", JVal.num ca)]] ∧
    JVal.get (JVal.obj [("problem_text", JVal.str pt),
      ("correct_answer", JVal.num ca)]) "problem_text" = some (JVal.str pt) ∧
    JVal.get (JVal.obj [("problem_text", JVal.str pt),
      ("correct_answer", JVal.num ca)]) "correct_answer" = some (JVal.num ca) ∧
    JVal.get (JVal.obj [("problem_text", JVal.str pt),
      ("correct_answer", JVal.num ca)]) "difficulty" = none ∧
    (mathProblemPOST gen dbInsert (some d)).response =
      GenResponse.success (JVal.get row "problem_text")
        (JVal.get row "correct_answer") (JVal.get row "id") d := by
  refine ⟨?_, rfl, rfl, rfl, ?_⟩
  · simp [mathProblemPOST, hd, hg, hdb]
  · simp [mathProblemPOST, hd, hg, hdb]

/-- Witness for C7 (amended) at a concrete conforming run. -/
theorem generator_persists_parsed_fields_witness :
    (mathProblemPOST
      (fun _ => Except.ok (JVal.obj [("problem_text", JVal.str "One pie costs?"),
        ("correct_answer", JVal.num 2)]))
      (fun _ => Except.ok (JVal.obj [("id", JVal.str "sess-1")]))
      (some "Easy")).attemptedInserts =
      [JVal.obj [("problem_text", JVal.str "One pie costs?"),
        ("correct_answer", JVal.num 2)]] ∧
    JVal.get (JVal.obj [("problem_text", JVal.str "One pie costs?"),
      ("correct_answer", JVal.num 2)]) "difficulty" = none :=
  ⟨(generator_persists_parsed_fields
      (fun _ => Except.ok (JVal.obj [("problem_text", JVal.str "One pie costs?"),
        ("correct_answer", JVal.num 2)]))
      (fun _ => Except.ok (JVal.obj [("id", JVal.str "sess-1")]))
      "Easy" "One pie costs?" 2 (JVal.obj [("id", JVal.str "sess-1")])
      (by decide) rfl rfl).1,
   (generator_persists_parsed_fields
      (fun _ => Except.ok (JVal.obj [("problem_text", JVal.str "One pie costs?"),
        ("correct_answer", JVal.num 2)]))
      (fun _ => Except.ok (JVal.obj [("id", JVal.str "sess-1")]))
      "Easy" "One pie costs?" 2 (JVal.obj [("id", JVal.str "sess-1")])
      (by decide) rfl rfl).2.2.2.1⟩

/-- Counterexample to C8 as stated: when the service returns the valid
JSON object `{}` — which does not conform to the declared two-field
schema — the generator raises no GenerationError: it inserts the object
as-is and, the insert succeeding, returns a 200 success response whose
`problem_text` and `final_answer` fields are absent. -/
theorem schema_unchecked_counterexample :
    mathProblemPOST (fun _ => Except.ok (JVal.obj []))
      (fun _ => Except.ok (JVal.obj [("id", JVal.str "sess-2")])) none =
      { response := GenResponse.success none none
          (some (JVal.str "sess-2")) "Medium"
        sentInstructions := [createSystemInstruction "Medium"]
        attemptedInserts := [JVal.obj []] } := by
  rfl

/-- C8 amended: if the service errors or returns text that is not valid
JSON, the generator fails with the 500 GenerationError and attempts no
insert; but parsed output is not checked against the schema: any JSON
value is inserted as-is, the run fails 500 only if that insert fails, and
otherwise returns a success response built from the row the database
returned. -/
theorem generator_error_handling_amended
    (gen : String → Except Unit JVal) (dbInsert : JVal → Except Unit JVal)
    (d : String) (hd : d ≠ "") :
    (∀ e, gen (createSystemInstruction d) = Except.error e →
      mathProblemPOST gen dbInsert (some d) =
        { response := GenResponse.error 500
            "An error occurred during problem generation or processing."
          sentInstructions := [createSystemInstruction d]
          attemptedInserts := [] }) ∧
    (∀ pd, gen (createSystemInstruction d) = Except.ok pd →
      (mathProblemPOST gen dbInsert (some d)).attemptedInserts = [pd] ∧
      (∀ e, dbInsert pd = Except.error e →
        (mathProblemPOST gen dbInsert (some d)).response =
          GenResponse.error 500 "Failed to save problem to database.") ∧
      (∀ row, dbInsert pd = Except.ok row →
        (mathProblemPOST gen dbInsert (some d)).response =
          GenResponse.success (JVal.get row "problem_text")
            (JVal.get row "correct_answer") (JVal.get row "id") d)) := by
  constructor
  · intro e hg
    simp [mathProblemPOST, hd, hg]
  · intro pd hg
    refine ⟨?_, ?_, ?_⟩
    · cases hdb : dbInsert pd with
      | ok row => simp [mathProblemPOST, hd, hg, hdb]
      | error e => simp [mathProblemPOST, hd, hg, hdb]
    · intro e hdb
      simp [mathProblemPOST, hd, hg, hdb]
    · intro row hdb
      simp [mathProblemPOST, hd, hg, hdb]

/-- Witness for C8 (amended): a failing service call yields the 500 error
with no insert, and a parsed `{}` flows through to a successful insert
and a 200 response. -/
theorem generator_error_handling_amended_witness :
    mathProblemPOST (fun _ => Except.error ())
      (fun _ => Except.ok (JVal.obj [("id", JVal.str "sess-2")])) (some "Easy") =
      { response := GenResponse.error 500
          "An error occurred during problem generation or processing."
        sentInstructions := [createSystemInstruction "Easy"]
        attemptedInserts := [] } ∧
    (mathProblemPOST (fun _ => Except.ok (JVal.obj []))
      (fun _ => Except.ok (JVal.obj [("id", JVal.str "sess-2")]))
      (some "Easy")).attemptedInserts = [JVal.obj []] :=
  ⟨(generator_error_handling_amended (fun _ => Except.error ())
      (fun _ => Except.ok (JVal.obj [("id", JVal.str "sess-2")]))
      "Easy" (by decide)).1 () rfl,
   ((generator_error_handling_amended (fun _ => Except.ok (JVal.obj []))
      (fun _ => Except.ok (JVal.obj [("id", JVal.str "sess-2")]))
      "Easy" (by decide)).2 (JVal.obj []) rfl).1⟩
